import Mathlib

/-!
Verification development for the pi-browser repository (src/cli.ts and the
extension background script): a shallow embedding of the Remote Command
Channel, the Action Dispatcher (Direct/CDP and Remote/extension backends),
the Agent Loop of runAgent, and the spec's Parallel Orchestrator assignment.

Conventions of the embedding:
 - JavaScript strings are Lean Strings (slices are by characters).
 - Absent JSON string fields and the empty string are identified; both are
   falsy wherever the source tests truthiness.
 - Playwright page primitives (getByRole, locator, first, click, fill) are
   modelled over a finite element list with an abstract CSS-match predicate;
   driver-level action effects are outside the model, only lookup
   success/failure and the produced texts are represented.
 - Promise resolve/reject continuations are represented by explicit
   Settlement events emitted by the handlers that would call them.
-/

namespace PiBrowser

/-- Word characters of the JS regex class backslash-w: ASCII letters, digits
and underscore. -/
def isWordChar (c : Char) : Bool :=
  c.isAlpha || c.isDigit || c == '_'

/-- Whether the first list is an initial segment of the second. -/
def listStarts : List Char → List Char → Bool
  | [], _ => true
  | _ :: _, [] => false
  | a :: as, b :: bs => a == b && listStarts as bs

/-- Whether the first list occurs as a contiguous segment of the second. -/
def listHasSeg (needle : List Char) : List Char → Bool
  | [] => needle.isEmpty
  | c :: t => listStarts needle (c :: t) || listHasSeg needle t

/-- JS String.includes: substring containment. -/
def containsSub (hay needle : String) : Bool :=
  listHasSeg needle.data hay.data

/-- Case-insensitive substring containment, the accessible-name matching of
getByRole with exact set to false. -/
def containsCI (hay needle : String) : Bool :=
  containsSub hay.toLower needle.toLower

/-- The regex of the selector grammar tier (a) in executeBrowserTool,
anchored word-char token, colon, double-quoted name with no inner quote:
on success, the captured (role, name) pair. -/
def roleNameSplit (cs : List Char) : Option (List Char × List Char) :=
  let w := cs.takeWhile isWordChar
  let rest := cs.drop w.length
  if w.isEmpty then none
  else
    match rest with
    | ':' :: '"' :: tail =>
      match tail.getLast? with
      | some '"' =>
        let mid := tail.dropLast
        if mid.all (fun c => c != '"') then some (w, mid) else none
      | _ => none
    | _ => none

/-- selector.match on the role-name pattern of the source. -/
def matchRoleName (s : String) : Option (String × String) :=
  match roleNameSplit s.data with
  | some (w, mid) => some (String.mk w, String.mk mid)
  | none => none

/-- selector.match on the bare-word pattern: nonempty, all word chars. -/
def isBareWord (s : String) : Bool :=
  !s.data.isEmpty && s.data.all isWordChar

/-- An element of the page as exposed by the browser driver: ARIA role,
accessible name and text content. -/
structure PageElem where
  role : String
  accName : String
  textContent : String
deriving DecidableEq

/-- Pure model of the Playwright page handle used by the Direct (CDP)
backend. Lookups run over a finite element list; the CSS engine, navigation
success, the aria snapshot, the screenshot bytes and the wait-condition
oracles are abstract data of the page. -/
structure PageModel where
  elems : List PageElem
  cssMatch : String → PageElem → Bool
  bodyInnerText : String
  title : String
  ariaSnapshotText : String
  screenshotData : String
  downloadSuggestedName : Option String
  homeDir : String
  gotoOk : String → Bool
  textAppears : String → Bool
  textGoesAway : String → Bool
  elemBecomesVisible : String → Bool

/-- page.getByRole(role, name with exact false): elements of the role whose
accessible name contains the requested name case-insensitively. -/
def getByRoleNamed (p : PageModel) (role name : String) : List PageElem :=
  p.elems.filter fun e => e.role == role && containsCI e.accName name

/-- page.getByRole(role) with no name option. -/
def getByRoleOnly (p : PageModel) (role : String) : List PageElem :=
  p.elems.filter fun e => e.role == role

/-- page.locator(css): the elements the CSS engine matches. -/
def locatorAll (p : PageModel) (css : String) : List PageElem :=
  p.elems.filter fun e => p.cssMatch css e

/-- locator.first() followed by the action: the head element, or the
driver's failure when nothing matched. -/
def firstElem (which : String) : List PageElem → Except String PageElem
  | [] => Except.error ("No element matches selector: " ++ which)
  | e :: _ => Except.ok e

/-- Selector resolution shared by the browser_click, browser_fill and
browser_download cases of executeBrowserTool (the identical three-branch
conditional appears in each case): role-name pattern, else bare word token
as a role, else literal CSS; exactly one branch is taken. -/
def resolveFirst (p : PageModel) (selector : String) : Except String PageElem :=
  match matchRoleName selector with
  | some (role, name) => firstElem selector (getByRoleNamed p role name)
  | none =>
    if isBareWord selector then firstElem selector (getByRoleOnly p selector)
    else firstElem selector (locatorAll p selector)

/-- The interactive roles list of the browser_snapshot case. -/
def interactiveRoles : List String :=
  ["button", "link", "textbox", "searchbox", "combobox", "checkbox", "radio"]

/-- Modelled from the spec: selector resolution as sections 4.2 and 8
describe it — tier (a) for the role-name pattern; tier (b) for a bare
alphabetic token naming a known role, falling back to tier (c) when the
role-scoped lookup matches nothing; tier (c) literal CSS otherwise. Stated
for comparison with resolveFirst, the resolution the source implements. -/
def specResolveFirst (p : PageModel) (selector : String) : Except String PageElem :=
  match matchRoleName selector with
  | some (role, name) => firstElem selector (getByRoleNamed p role name)
  | none =>
    if (!selector.data.isEmpty && selector.data.all Char.isAlpha)
        && interactiveRoles.contains selector then
      match getByRoleOnly p selector with
      | [] => firstElem selector (locatorAll p selector)
      | e :: _ => Except.ok e
    else firstElem selector (locatorAll p selector)

/-- JS text.slice(0, n): the first n characters. -/
def sliceTo (s : String) (n : Nat) : String :=
  String.mk (s.data.take n)

/-- JS parseInt in base 10: optional whitespace, optional sign, a nonempty
digit run; none when no digits follow. -/
def parseIntJS (s : String) : Option Int :=
  let cs := s.data.dropWhile fun c => c == ' ' || c == '\t' || c == '\n' || c == '\r'
  let signedTail : Bool × List Char :=
    match cs with
    | '-' :: t => (true, t)
    | '+' :: t => (false, t)
    | t => (false, t)
  let ds := signedTail.2.takeWhile Char.isDigit
  if ds.isEmpty then none
  else
    let n : Nat := ds.foldl (fun acc c => acc * 10 + (c.toNat - '0'.toNat)) 0
    some (if signedTail.1 then -(n : Int) else (n : Int))

/-- One line of the aria snapshot against the line regex of browser_snapshot:
leading blanks, a dash, blanks, a word-char role, then optionally blanks and
a double-quoted name. -/
def parseSnapshotLine (cs : List Char) : Option (String × Option String) :=
  let cs1 := cs.dropWhile fun c => c == ' ' || c == '\t'
  match cs1 with
  | '-' :: rest =>
    let rest1 := rest.dropWhile fun c => c == ' ' || c == '\t'
    let w := rest1.takeWhile isWordChar
    if w.isEmpty then none
    else
      let after := rest1.drop w.length
      let ws := after.takeWhile fun c => c == ' ' || c == '\t'
      let after2 := after.drop ws.length
      match ws.isEmpty, after2 with
      | false, '"' :: tl =>
        let nm := tl.takeWhile fun c => c != '"'
        match tl.drop nm.length with
        | '"' :: _ => some (String.mk w, some (String.mk nm))
        | _ => some (String.mk w, none)
      | _, _ => some (String.mk w, none)
  | _ => none

/-- The snapshot listing of browser_snapshot: parse each line, keep the
interactive roles, and render at most 20 numbered entries with their
role-name refs. -/
def snapshotEntries (snapshot : String) : List String :=
  let parsed := (snapshot.splitOn "\n").filterMap fun l => parseSnapshotLine l.data
  let inter := parsed.filter fun pr => interactiveRoles.contains pr.1.toLower
  (inter.take 20).enum.map fun pr =>
    let i := pr.1 + 1
    let role := pr.2.1
    match pr.2.2 with
    | some nm =>
      "[e" ++ toString i ++ "] " ++ role ++ " \"" ++ nm ++ "\" → "
        ++ role ++ ":\"" ++ nm ++ "\""
    | none => "[e" ++ toString i ++ "] " ++ role ++ " → " ++ role

/-- The argument record of a tool call; JSON-absent string fields are the
empty string. -/
structure ToolArgs where
  url : String := ""
  selector : String := ""
  text : String := ""
  key : String := ""
  direction : String := ""
  timeMs : String := ""
  textGone : String := ""
  filename : String := ""
deriving DecidableEq

/-- An image content part of a tool result. -/
structure ImagePart where
  data : String
  mimeType : String
deriving DecidableEq

/-- The normalized result contract of both executors. -/
structure ToolOutput where
  text : String
  image : Option ImagePart := none
deriving DecidableEq

/-- The browser_wait case of the CDP executor: optional bounded sleep, then
the three page-condition waits in sequence, any failing one aborting the
whole call. -/
def waitCDP (p : PageModel) (a : ToolArgs) : Except String ToolOutput := do
  let acc1 : List String :=
    if a.timeMs != "" then
      match parseIntJS a.timeMs with
      | some n =>
        if 0 < n then ["Waited " ++ toString (min n.toNat 60000) ++ "ms"] else []
      | none => []
    else []
  let acc2 ←
    if a.text != "" then
      if p.textAppears a.text then
        Except.ok (acc1 ++ ["Text \"" ++ a.text ++ "\" appeared"])
      else Except.error ("Timeout waiting for text: " ++ a.text)
    else Except.ok acc1
  let acc3 ←
    if a.textGone != "" then
      if p.textGoesAway a.textGone then
        Except.ok (acc2 ++ ["Text \"" ++ a.textGone ++ "\" disappeared"])
      else Except.error ("Timeout waiting for text to disappear: " ++ a.textGone)
    else Except.ok acc2
  let acc4 ←
    if a.selector != "" then
      if p.elemBecomesVisible a.selector then
        Except.ok (acc3 ++ ["Element \"" ++ a.selector ++ "\" visible"])
      else Except.error ("Timeout waiting for element: " ++ a.selector)
    else Except.ok acc3
  Except.ok { text := if acc4.length > 0 then String.intercalate ", " acc4 else "Wait completed" }

/-- The fixed tool registry (the names of the browserTools schema list). -/
def browserToolNames : List String :=
  ["browser_navigate", "browser_click", "browser_fill", "browser_press",
   "browser_screenshot", "browser_snapshot", "browser_scroll",
   "browser_get_text", "browser_wait", "browser_download"]

/-- The Direct (CDP) executor: the switch of executeBrowserTool once the
page handle is obtained. Selector-resolution failures surface as errors;
the driver action itself is abstracted as succeeding once an element
resolved. -/
def executeBrowserToolCDP (p : PageModel) (name : String) (a : ToolArgs) :
    Except String ToolOutput :=
  match name with
  | "browser_navigate" =>
    if p.gotoOk a.url then
      Except.ok { text := "Navigated to " ++ a.url ++ ". Title: " ++ p.title }
    else Except.error ("Navigation failed: " ++ a.url)
  | "browser_click" => do
    let _ ← resolveFirst p a.selector
    Except.ok { text := "Clicked: " ++ a.selector }
  | "browser_fill" => do
    let _ ← resolveFirst p a.selector
    Except.ok { text := "Filled \"" ++ a.text ++ "\" into " ++ a.selector }
  | "browser_press" => Except.ok { text := "Pressed: " ++ a.key }
  | "browser_screenshot" =>
    Except.ok { text := "Screenshot captured"
                image := some { data := p.screenshotData, mimeType := "image/jpeg" } }
  | "browser_snapshot" =>
    Except.ok { text := "Page elements (use ref value for selector):\n"
                  ++ String.intercalate "\n" (snapshotEntries p.ariaSnapshotText) }
  | "browser_scroll" => Except.ok { text := "Scrolled " ++ a.direction }
  | "browser_get_text" =>
    if a.selector == "" then Except.ok { text := sliceTo p.bodyInnerText 2000 }
    else do
      let e ← firstElem a.selector (locatorAll p a.selector)
      Except.ok { text := sliceTo e.textContent 2000 }
  | "browser_wait" => waitCDP p a
  | "browser_download" => do
    let _ ← resolveFirst p a.selector
    match p.downloadSuggestedName with
    | none => Except.error "Download timeout"
    | some suggested =>
      let fname := if a.filename == "" then "download" else a.filename
      Except.ok { text := "Downloaded: " ++ p.homeDir ++ "/Downloads/" ++ fname
                    ++ " (" ++ suggested ++ ")" }
  | _ => Except.ok { text := "Unknown tool: " ++ name }

/-- WebSocket readyState OPEN. -/
def wsOpen : Nat := 1

/-- A socket connection handle: an identity and its readyState. -/
structure Conn where
  connId : Nat
  readyState : Nat
deriving DecidableEq

/-- A parameter value of a Remote Command wire message. -/
inductive ParamVal
  | str (s : String)
  | num (n : Int)
deriving DecidableEq

/-- The params object of a Remote Command wire message. -/
abbrev Params := List (String × ParamVal)

/-- Process-wide state of the Remote Command Channel in extension mode:
the actuator handle the sender uses, the connections whose message handler
was attached, the correlation-id counter, and the ids with a live Pending
Request (the resolve and reject continuations being represented by the
Settlement events the handlers emit). -/
structure ChannelState where
  extClient : Option Conn
  listeners : List Nat
  messageId : Nat
  pending : List Nat
deriving DecidableEq

/-- The rejection message of sendExtCommand when no actuator is connected. -/
def connErrorMsg : String :=
  "Extension이 연결되지 않았습니다. Chrome에서 Pi-Browser 확장 프로그램을 확인하세요."

/-- The fixed reply window of a Remote Command, in milliseconds. -/
def commandTimeoutMs : Nat := 60000

/-- The synchronous outcome of sendExtCommand: an immediate rejection with
no transmission, or a transmitted wire message with its fresh correlation
id (the caller then waits on the Pending Request). -/
inductive SendOutcome
  | notConnected (errMsg : String)
  | sent (id : Nat) (command : String) (params : Params)
deriving DecidableEq

/-- sendExtCommand: reject synchronously when no open actuator connection
exists; otherwise allocate the next correlation id, record a Pending
Request under it and transmit the message. The timeout closure it
schedules after commandTimeoutMs is fireTimeout below. -/
def sendExtCommand (st : ChannelState) (command : String) (params : Params) :
    ChannelState × SendOutcome :=
  match st.extClient with
  | none => (st, SendOutcome.notConnected connErrorMsg)
  | some conn =>
    if conn.readyState != wsOpen then (st, SendOutcome.notConnected connErrorMsg)
    else
      let id := st.messageId + 1
      ({ st with messageId := id, pending := st.pending ++ [id] },
       SendOutcome.sent id command params)

/-- How a waiting caller is settled: the resolve or reject continuation of
its Pending Request, applied. -/
inductive Settlement (α : Type)
  | resolved (v : α)
  | rejected (msg : String)
deriving DecidableEq

/-- An incoming reply wire message: correlation id, optional error field
and result payload. -/
structure Reply (α : Type) where
  id : Nat
  error : Option String := none
  result : α
deriving DecidableEq

/-- The message handler of the extension server: look up the Pending
Request for the reply's id; when present remove it and settle the caller —
rejecting when the error field is truthy (present and nonempty), resolving
with the result otherwise; when absent do nothing. -/
def handleReply {α : Type} (st : ChannelState) (msg : Reply α) :
    ChannelState × Option (Nat × Settlement α) :=
  if st.pending.contains msg.id then
    ({ st with pending := st.pending.filter fun i => i != msg.id },
     some (msg.id,
       match msg.error with
       | some e => if e == "" then Settlement.resolved msg.result else Settlement.rejected e
       | none => Settlement.resolved msg.result))
  else (st, none)

/-- A message arriving on a particular connection: the handler runs only
when that connection's message listener was attached (it is attached on
accept and never removed). -/
def handleMessageFrom {α : Type} (st : ChannelState) (connId : Nat) (msg : Reply α) :
    ChannelState × Option (Nat × Settlement α) :=
  if st.listeners.contains connId then handleReply st msg else (st, none)

/-- The timeout closure sendExtCommand schedules commandTimeoutMs after a
send: if the id is still pending, remove it and reject the caller with the
timeout message. -/
def fireTimeout {α : Type} (st : ChannelState) (id : Nat) (command : String) :
    ChannelState × Option (Nat × Settlement α) :=
  if st.pending.contains id then
    ({ st with pending := st.pending.filter fun i => i != id },
     some (id, Settlement.rejected ("명령 타임아웃: " ++ command)))
  else (st, none)

/-- The connection handler of startExtensionServer: the accepted socket
becomes the actuator handle and its message and close listeners are
attached. Nothing else changes; in particular no Pending Request is
settled, which the empty settlement list records. -/
def handleConnection {α : Type} (st : ChannelState) (newConnId : Nat) :
    ChannelState × List (Nat × Settlement α) :=
  ({ st with extClient := some { connId := newConnId, readyState := wsOpen },
             listeners := st.listeners ++ [newConnId] }, [])

/-- The close handler attached to every accepted socket: it clears the
actuator handle (whichever socket closed). -/
def handleClose (st : ChannelState) : ChannelState :=
  { st with extClient := none }

/-- An element record of the extension's snapshot reply. -/
structure SnapElem where
  ref : String
  tag : String
  text : String
  selector : String
deriving DecidableEq

/-- Reply payload of an extension command, as a duck-typed record: each
command's reply populates the fields its executor case reads. -/
structure ExtReply where
  url : String := ""
  title : String := ""
  image : String := ""
  text : String := ""
  elements : List SnapElem := []
deriving DecidableEq

/-- The data-URL header strip of the screenshot case: the regex removes a
leading data colon image slash word semicolon base64 comma header when
present. -/
def dropDataUrlHeader (cs : List Char) : Option (List Char) :=
  if listStarts ("data:image/".data) cs then
    let rest := cs.drop 11
    let w := rest.takeWhile isWordChar
    if w.isEmpty then none
    else
      let rest2 := rest.drop w.length
      if listStarts (";base64,".data) rest2 then some (rest2.drop 8) else none
  else none

/-- dataUrl.replace of the screenshot case. -/
def stripDataUrl (s : String) : String :=
  match dropDataUrlHeader s.data with
  | some rest => String.mk rest
  | none => s

/-- The Remote (extension) executor: each case forwards its command over
the channel through the given send oracle and reshapes the reply; a send
failure propagates out of the executor. browser_wait sleeps locally and
never touches the channel; names outside the switch (browser_download
included) fall to the default case. -/
def executeExtensionTool (send : String → Params → Except String ExtReply)
    (name : String) (a : ToolArgs) : Except String ToolOutput :=
  match name with
  | "browser_navigate" => do
    let r ← send "navigate" [("url", ParamVal.str a.url)]
    Except.ok { text := "Navigated to " ++ r.url ++ ". Title: " ++ r.title }
  | "browser_click" => do
    let _ ← send "click" [("selector", ParamVal.str a.selector)]
    Except.ok { text := "Clicked: " ++ a.selector }
  | "browser_fill" => do
    let _ ← send "fill" [("selector", ParamVal.str a.selector), ("value", ParamVal.str a.text)]
    Except.ok { text := "Filled \"" ++ a.text ++ "\" into " ++ a.selector }
  | "browser_press" => do
    let _ ← send "press" [("key", ParamVal.str a.key)]
    Except.ok { text := "Pressed: " ++ a.key }
  | "browser_screenshot" => do
    let r ← send "screenshot" []
    Except.ok { text := "Screenshot captured"
                image := some { data := stripDataUrl r.image, mimeType := "image/png" } }
  | "browser_snapshot" => do
    let r ← send "snapshot" []
    let lines := (r.elements.take 20).enum.map fun pr =>
      "[e" ++ toString (pr.1 + 1) ++ "] " ++ pr.2.tag ++ " \""
        ++ sliceTo pr.2.text 50 ++ "\" → " ++ pr.2.selector
    Except.ok { text := "Page elements:\n" ++ String.intercalate "\n" lines }
  | "browser_scroll" => do
    let dir := if a.direction == "" then "down" else a.direction
    let _ ← send "scroll" [("direction", ParamVal.str dir), ("amount", ParamVal.num 500)]
    Except.ok { text := "Scrolled " ++ dir }
  | "browser_get_text" => do
    let r ← send "getText" []
    Except.ok { text := "Page text:\n" ++ sliceTo r.text 5000 }
  | "browser_wait" =>
    if a.timeMs != "" then Except.ok { text := "Waited " ++ a.timeMs ++ "ms" }
    else Except.ok { text := "Waited" }
  | _ => Except.ok { text := "Unknown tool: " ++ name }

/-- The send oracle when no actuator connection is open: every send rejects
synchronously with connErrorMsg, exactly as sendExtCommand then does. -/
def sendNoConn : String → Params → Except String ExtReply :=
  fun _ _ => Except.error connErrorMsg

/-- The extension-executor tools that are forwarded over the channel (every
case of the switch that awaits sendExtCommand). -/
def remoteForwardedTools : List String :=
  ["browser_navigate", "browser_click", "browser_fill", "browser_press",
   "browser_screenshot", "browser_snapshot", "browser_scroll", "browser_get_text"]

/-- A tool call emitted by the model: id, tool name, argument record. -/
structure ToolCall where
  id : String
  name : String
  args : ToolArgs
deriving DecidableEq

/-- A content block of an assistant message. -/
inductive ContentBlock
  | text (s : String)
  | toolCall (tc : ToolCall)
deriving DecidableEq

/-- The assembled assistant response of one model turn. -/
structure AssistantMsg where
  content : List ContentBlock
deriving DecidableEq

/-- A content block of a tool result. -/
inductive ResultBlock
  | text (s : String)
  | image (data : String) (mimeType : String)
deriving DecidableEq

/-- A message of the Conversation (ctx.messages). Timestamps carry no
control meaning and are omitted. -/
inductive Message
  | user (content : String)
  | assistant (m : AssistantMsg)
  | toolResult (toolCallId : String) (toolName : String)
      (content : List ResultBlock) (isError : Bool)
deriving DecidableEq

/-- The tool-result message the loop body appends for one call: on success
a text block of the result text plus the image block when present, with
isError false; on a caught failure a single text block prefixed with
Error, with isError true. Either way the toolCallId is the call's id. -/
def toolResultFor (call : ToolCall) : Except String ToolOutput → Message
  | Except.ok r =>
    Message.toolResult call.id call.name
      (ResultBlock.text r.text ::
        (match r.image with
         | some im => [ResultBlock.image im.data im.mimeType]
         | none => [])) false
  | Except.error e =>
    Message.toolResult call.id call.name
      [ResultBlock.text ("Error: " ++ e)] true

/-- The inner for-loop over a turn's tool calls: execute each in emission
order against the threaded backend state, catching each failure locally and
appending one tool result per call. -/
def runToolCalls {σ : Type} (exec : σ → ToolCall → σ × Except String ToolOutput) :
    σ → List ToolCall → σ × List Message
  | s, [] => (s, [])
  | s, call :: rest =>
    let step := exec s call
    let next := runToolCalls exec step.1 rest
    (next.1, toolResultFor call step.2 :: next.2)

/-- The backend state after executing a list of tool calls in order. -/
def toolStateAfter {σ : Type} (exec : σ → ToolCall → σ × Except String ToolOutput)
    (s : σ) (tcs : List ToolCall) : σ :=
  (runToolCalls exec s tcs).1

/-- The turn's tool calls, in the order the content blocks were emitted. -/
def toolCallsOf (m : AssistantMsg) : List ToolCall :=
  m.content.filterMap fun b =>
    match b with
    | ContentBlock.toolCall tc => some tc
    | _ => none

/-- Whether the response contains a text block. -/
def hasTextBlock (m : AssistantMsg) : Bool :=
  m.content.any fun b =>
    match b with
    | ContentBlock.text _ => true
    | _ => false

/-- The synthetic corrective user message of the no-tool-call branch. -/
def nudgeMsg : String :=
  "도구를 사용해서 작업을 수행하세요. 먼저 browser_navigate로 웹사이트에 접속하세요."

/-- How one runAgent invocation ends: a text-only response completes the
mission, a model-client failure breaks the loop with the error, and an
exhausted turn budget falls out of the for loop. -/
inductive RunOutcome
  | missionComplete
  | modelError (msg : String)
  | silentExhaustion
deriving DecidableEq

/-- What runAgent reports at termination (its console output; the function
itself returns nothing): a completion line, the model error line, or —
when the for loop exhausts its turns — nothing at all. -/
def reportOf : RunOutcome → Option String
  | RunOutcome.missionComplete => some "✅ 미션 완료"
  | RunOutcome.modelError e => some ("Error: " ++ e)
  | RunOutcome.silentExhaustion => none

/-- The observable result of a run: final conversation, number of model
calls sent, termination outcome. -/
structure RunResult where
  messages : List Message
  modelCalls : Nat
  outcome : RunOutcome
deriving DecidableEq

/-- The turn loop of runAgent: while turns remain, send the conversation to
the model client; a client failure breaks the loop; a response is appended,
then either the mission completes (text, no tool calls), a corrective nudge
is appended (neither), or the tool calls run in order and the loop
continues. Each iteration is exactly one model call. -/
def runLoop {σ : Type} (client : List Message → Except String AssistantMsg)
    (exec : σ → ToolCall → σ × Except String ToolOutput) :
    Nat → List Message → Nat → σ → RunResult
  | 0, msgs, calls, _ => { messages := msgs, modelCalls := calls, outcome := RunOutcome.silentExhaustion }
  | fuel + 1, msgs, calls, s =>
    match client msgs with
    | Except.error e =>
      { messages := msgs, modelCalls := calls + 1, outcome := RunOutcome.modelError e }
    | Except.ok response =>
      let msgs2 := msgs ++ [Message.assistant response]
      let tcs := toolCallsOf response
      if tcs.isEmpty then
        if hasTextBlock response then
          { messages := msgs2, modelCalls := calls + 1, outcome := RunOutcome.missionComplete }
        else runLoop client exec fuel (msgs2 ++ [Message.user nudgeMsg]) (calls + 1) s
      else
        let r := runToolCalls exec s tcs
        runLoop client exec fuel (msgs2 ++ r.2) (calls + 1) r.1

/-- runAgent: initialize the conversation with the mission as the single
user message and run the turn loop under the turn budget. -/
def runAgentModel {σ : Type} (client : List Message → Except String AssistantMsg)
    (exec : σ → ToolCall → σ × Except String ToolOutput)
    (mission : String) (maxTurns : Nat) (s : σ) : RunResult :=
  runLoop client exec maxTurns [Message.user mission] 0 s

/-- The turn budget hard-coded in the cited runAgent variant. -/
def defaultMaxTurns : Nat := 100

/-- Modelled from the spec: the Parallel Orchestrator's round-robin
assignment (the runAll contract of section 4.4), whose source is not among
the provided files. Mission at index i is assigned to session at index
i mod sessions.length; the whole Task Assignment list of
(session, mission, ordinal) triples is computed once up front. -/
def assignRoundRobin {S M : Type} (sessions : List S) (missions : List M) :
    List (Option S × M × Nat) :=
  missions.enum.map fun p => (sessions[p.1 % sessions.length]?, p.2, p.1)

/-! ### Helper lemmas -/

theorem runToolCalls_length {σ : Type} (exec : σ → ToolCall → σ × Except String ToolOutput)
    (s : σ) (tcs : List ToolCall) :
    ((runToolCalls exec s tcs).2).length = tcs.length := by
  induction tcs generalizing s with
  | nil => rfl
  | cons c t ih => simp [runToolCalls, ih]

theorem runToolCalls_getElem? {σ : Type} (exec : σ → ToolCall → σ × Except String ToolOutput) :
    ∀ (tcs : List ToolCall) (s : σ) (i : Nat) (call : ToolCall),
      tcs[i]? = some call →
      ((runToolCalls exec s tcs).2)[i]? =
        some (toolResultFor call ((exec (toolStateAfter exec s (tcs.take i)) call).2))
  | [], _, i, _, h => by simp at h
  | c :: t, s, 0, call, h => by
    simp only [List.getElem?_cons_zero, Option.some.injEq] at h
    subst h
    simp [runToolCalls, toolStateAfter]
  | c :: t, s, i + 1, call, h => by
    simp only [List.getElem?_cons_succ] at h
    have ih := runToolCalls_getElem? exec t (exec s c).1 i call h
    simpa [runToolCalls, toolStateAfter] using ih

theorem filter_ne_contains_self (l : List Nat) (k : Nat) :
    (l.filter fun i => i != k).contains k = false := by
  induction l with
  | nil => rfl
  | cons a t ih =>
    rw [List.filter_cons]
    by_cases h : a = k
    · subst h; simp [ih]
    · have hb : (a != k) = true := by simpa [bne_iff_ne] using h
      simp only [hb, if_true, List.contains_cons]
      simp [ih, Ne.symm h]

theorem filter_ne_contains_other (l : List Nat) (k j : Nat) (h : j ≠ k) :
    (l.filter fun i => i != k).contains j = l.contains j := by
  induction l with
  | nil => rfl
  | cons a t ih =>
    rw [List.filter_cons]
    by_cases ha : a = k
    · subst ha
      simp only [bne_self_eq_false, if_false, List.contains_cons]
      simp [ih, h]
    · have hb : (a != k) = true := by simpa [bne_iff_ne] using ha
      simp only [hb, if_true, List.contains_cons]
      simp [ih, h]

/-! ### Fixtures for witnesses and counterexamples -/

/-- A backend executor that fails on the tool named boom and succeeds on
every other name. -/
def execMix : Unit → ToolCall → Unit × Except String ToolOutput :=
  fun u c => (u, if c.name == "boom" then Except.error "boom" else Except.ok { text := "ok" })

/-- A succeeding tool call. -/
def callGood : ToolCall := { id := "a1", name := "browser_press", args := { key := "Enter" } }

/-- A failing tool call. -/
def callBad : ToolCall := { id := "a2", name := "boom", args := {} }

/-- A model client that always answers with a text-only response. -/
def clientText : List Message → Except String AssistantMsg :=
  fun _ => Except.ok { content := [ContentBlock.text "done"] }

/-- A backend executor that always succeeds. -/
def execOk : Unit → ToolCall → Unit × Except String ToolOutput :=
  fun u _ => (u, Except.ok { text := "ok" })

/-! ### Claims -/

/-- Claim C1: within every assistant turn the tool calls execute
sequentially in emission order (the backend state threads left to right
through the list), the loop never aborts mid-turn (one tool result per
call), each caught failure yields a tool result with the call's id,
isError true and a single text block of Error plus the message, each
success yields a tool result with the call's id, isError false and a
leading text block of the result text, and the turn loop then continues
with the next turn on the extended conversation. -/
theorem claim_c1 {σ : Type} (exec : σ → ToolCall → σ × Except String ToolOutput)
    (s : σ) (tcs : List ToolCall) :
    ((runToolCalls exec s tcs).2).length = tcs.length ∧
    (∀ (i : Nat) (call : ToolCall), tcs[i]? = some call →
      ((runToolCalls exec s tcs).2)[i]? =
        some (toolResultFor call ((exec (toolStateAfter exec s (tcs.take i)) call).2))) ∧
    (∀ (i : Nat) (call : ToolCall) (e : String), tcs[i]? = some call →
      (exec (toolStateAfter exec s (tcs.take i)) call).2 = Except.error e →
      ((runToolCalls exec s tcs).2)[i]? =
        some (Message.toolResult call.id call.name
          [ResultBlock.text ("Error: " ++ e)] true)) ∧
    (∀ (i : Nat) (call : ToolCall) (out : ToolOutput), tcs[i]? = some call →
      (exec (toolStateAfter exec s (tcs.take i)) call).2 = Except.ok out →
      ∃ blocks, ((runToolCalls exec s tcs).2)[i]? =
        some (Message.toolResult call.id call.name blocks false) ∧
        blocks.head? = some (ResultBlock.text out.text)) ∧
    (∀ (client : List Message → Except String AssistantMsg) (fuel : Nat)
        (msgs : List Message) (calls : Nat) (response : AssistantMsg),
      client msgs = Except.ok response → toolCallsOf response ≠ [] →
      runLoop client exec (fuel + 1) msgs calls s =
        runLoop client exec fuel
          ((msgs ++ [Message.assistant response]) ++ (runToolCalls exec s (toolCallsOf response)).2)
          (calls + 1) (runToolCalls exec s (toolCallsOf response)).1) := by
  refine ⟨runToolCalls_length exec s tcs, runToolCalls_getElem? exec tcs s, ?_, ?_, ?_⟩
  · intro i call e hi he
    have h := runToolCalls_getElem? exec tcs s i call hi
    rw [he] at h
    exact h
  · intro i call out hi ho
    have h := runToolCalls_getElem? exec tcs s i call hi
    rw [ho] at h
    exact ⟨_, h, rfl⟩
  · intro client fuel msgs calls response hc htc
    have hne : (toolCallsOf response).isEmpty = false := by
      cases h : toolCallsOf response with
      | nil => exact absurd h htc
      | cons a t => rfl
    simp [runLoop, hc, hne]

/-- Claim C1 witness: on a concrete two-call turn where the second call
fails, the loop produces two results and the second is the caught error
result with the matching id. -/
theorem claim_c1_witness :
    ((runToolCalls execMix () [callGood, callBad]).2).length = 2 ∧
    ((runToolCalls execMix () [callGood, callBad]).2)[1]? =
      some (Message.toolResult "a2" "boom" [ResultBlock.text ("Error: " ++ "boom")] true) := by
  refine ⟨(claim_c1 execMix () [callGood, callBad]).1, ?_⟩
  exact (claim_c1 execMix () [callGood, callBad]).2.2.1 1 callBad "boom" rfl rfl

/-- Claim C2 counterexample: a run with turn budget 0 terminates
immediately with zero model calls, but it reports nothing at all — there
is no max-turns-exceeded outcome, refuting the reporting part of the
claim. -/
theorem claim_c2_counterexample :
    (runAgentModel clientText execOk "mission" 0 ()).modelCalls = 0 ∧
    (runAgentModel clientText execOk "mission" 0 ()).outcome = RunOutcome.silentExhaustion ∧
    reportOf (runAgentModel clientText execOk "mission" 0 ()).outcome = none ∧
    ¬ (∃ r, reportOf (runAgentModel clientText execOk "mission" 0 ()).outcome = some r ∧
        containsSub r "max turns exceeded" = true) := by
  refine ⟨rfl, rfl, rfl, ?_⟩
  rintro ⟨r, hr, -⟩
  exact Option.noConfusion hr

/-- Claim C2 (amended): a run whose turn budget is exhausted stops
silently — the loop falls out of its for statement with no reported
outcome; in particular a run with turn budget 0 terminates immediately,
sends zero model calls and leaves the conversation at the initial user
message alone. -/
theorem claim_c2 {σ : Type} (client : List Message → Except String AssistantMsg)
    (exec : σ → ToolCall → σ × Except String ToolOutput) (mission : String) (s : σ) :
    runAgentModel client exec mission 0 s =
      { messages := [Message.user mission], modelCalls := 0,
        outcome := RunOutcome.silentExhaustion } ∧
    reportOf (runAgentModel client exec mission 0 s).outcome = none ∧
    (∀ (msgs : List Message) (calls : Nat),
      runLoop client exec 0 msgs calls s =
        { messages := msgs, modelCalls := calls, outcome := RunOutcome.silentExhaustion }) := by
  exact ⟨rfl, rfl, fun _ _ => rfl⟩

/-- A channel state with a live Pending Request under ids 5 and 7. -/
def stC3 : ChannelState :=
  { extClient := some { connId := 1, readyState := wsOpen }, listeners := [1],
    messageId := 7, pending := [5, 7] }

/-- Claim C3 counterexample: a reply whose error field is the empty string
is falsy to the handler's truthiness test, so the caller is resolved with
the reply's result instead of being rejected with the empty error. -/
theorem claim_c3_counterexample :
    handleReply stC3 { id := 7, error := some "", result := (42 : Nat) } =
      ({ stC3 with pending := [5] }, some (7, Settlement.resolved 42)) ∧
    (handleReply stC3 { id := 7, error := some "", result := (42 : Nat) }).2 ≠
      some (7, Settlement.rejected "") := by
  refine ⟨rfl, ?_⟩
  intro h
  have h2 : (some (7, Settlement.resolved (42 : Nat)) : Option (Nat × Settlement Nat)) =
      some (7, Settlement.rejected "") := h
  simp at h2

/-- Claim C3 (amended): a result reply for a pending id removes the Pending
Request and resolves the caller with exactly the result; an error reply
with a nonempty error rejects it with that error (an empty error string is
falsy and resolves with the result instead); every other pending id is
untouched; a reply whose id has no Pending Request is a no-op. -/
theorem claim_c3 {α : Type} (st : ChannelState) (k : Nat) (r : α) (e : String)
    (hp : st.pending.contains k = true) (he : e ≠ "") :
    handleReply st { id := k, result := r } =
      ({ st with pending := st.pending.filter fun i => i != k },
        some (k, Settlement.resolved r)) ∧
    handleReply st { id := k, error := some e, result := r } =
      ({ st with pending := st.pending.filter fun i => i != k },
        some (k, Settlement.rejected e)) ∧
    (∀ j, j ≠ k →
      (handleReply st { id := k, result := r }).1.pending.contains j =
        st.pending.contains j) ∧
    (∀ (st2 : ChannelState) (msg : Reply α), st2.pending.contains msg.id = false →
      handleReply st2 msg = (st2, none)) := by
  have hp' : k ∈ st.pending := by simpa using hp
  have hbe : (e == "") = false := by simpa [beq_iff_eq] using he
  have h1 : handleReply st { id := k, result := r } =
      ({ st with pending := st.pending.filter fun i => i != k },
        some (k, Settlement.resolved r)) := by
    simp [handleReply, hp']
  refine ⟨h1, by simp [handleReply, hp', hbe], ?_, ?_⟩
  · intro j hj
    rw [h1]
    exact filter_ne_contains_other st.pending k j hj
  · intro st2 msg hm
    have hm' : msg.id ∉ st2.pending := by simpa using hm
    simp [handleReply, hm']

/-- Claim C3 witness: on the concrete pending table, a nonempty error reply
for id 7 rejects with that error and removes the request. -/
theorem claim_c3_witness :
    handleReply stC3 { id := 7, error := some "bad", result := (0 : Nat) } =
      ({ stC3 with pending := stC3.pending.filter fun i => i != 7 },
        some (7, Settlement.rejected "bad")) :=
  (claim_c3 stC3 7 (0 : Nat) "bad" rfl (by decide)).2.1

/-- A channel state with a live Pending Request under id 3. -/
def stC4 : ChannelState :=
  { extClient := some { connId := 1, readyState := wsOpen }, listeners := [1],
    messageId := 3, pending := [3] }

/-- Claim C4: the 60-second timeout closure of a still-pending request
removes it from the pending table and rejects the caller with the timeout
message; afterwards the id is free (no longer contained) and a late reply
for it is a no-op that is dropped. -/
theorem claim_c4 {α : Type} (st : ChannelState) (id : Nat) (command : String)
    (hp : st.pending.contains id = true) :
    commandTimeoutMs = 60000 ∧
    fireTimeout (α := α) st id command =
      ({ st with pending := st.pending.filter fun i => i != id },
        some (id, Settlement.rejected ("명령 타임아웃: " ++ command))) ∧
    (fireTimeout (α := α) st id command).1.pending.contains id = false ∧
    (∀ msg : Reply α, msg.id = id →
      handleReply (fireTimeout (α := α) st id command).1 msg =
        ((fireTimeout (α := α) st id command).1, none)) := by
  have hp' : id ∈ st.pending := by simpa using hp
  refine ⟨rfl, by simp [fireTimeout, hp'], ?_, ?_⟩
  · simp [fireTimeout, hp', List.mem_filter]
  · intro msg hm
    have hc : msg.id ∉ (fireTimeout (α := α) st id command).1.pending := by
      simp [fireTimeout, hp', hm, List.mem_filter]
    simp [handleReply, hc]

/-- Claim C4 witness: concretely, firing the timeout for pending id 3
rejects it with the timeout message and frees the id. -/
theorem claim_c4_witness :
    fireTimeout (α := Nat) stC4 3 "navigate" =
      ({ stC4 with pending := stC4.pending.filter fun i => i != 3 },
        some (3, Settlement.rejected ("명령 타임아웃: " ++ "navigate"))) ∧
    (fireTimeout (α := Nat) stC4 3 "navigate").1.pending.contains 3 = false := by
  have h := claim_c4 (α := Nat) stC4 3 "navigate" rfl
  exact ⟨h.2.1, h.2.2.1⟩

/-- The channel state with no actuator connection. -/
def stNoConn : ChannelState :=
  { extClient := none, listeners := [], messageId := 0, pending := [] }

/-- Claim C5 counterexample: with no connection, browser_download (which
the extension switch does not handle) and browser_wait (which never
touches the channel) still return successful results, and the error text
of the failing tools does not contain the literal not-connected phrase —
the rejection message is Korean. -/
theorem claim_c5_counterexample :
    executeExtensionTool sendNoConn "browser_download"
        { selector := "a", filename := "f.mp3" } =
      Except.ok { text := "Unknown tool: browser_download" } ∧
    executeExtensionTool sendNoConn "browser_wait" { timeMs := "5000" } =
      Except.ok { text := "Waited 5000ms" } ∧
    containsSub ("Error: " ++ connErrorMsg) "not connected" = false := by
  exact ⟨rfl, rfl, by decide⟩

/-- Claim C5 (amended): with no open actuator connection every send fails
synchronously with the Korean not-connected message and transmits nothing
(state unchanged); each of the eight channel-forwarded tools then yields an
error Tool Result with the call's id, isError true and text Error plus that
message; and the turn's tool loop still produces one result per call, so
the run continues rather than aborting. -/
theorem claim_c5 (st : ChannelState) (hnc : st.extClient = none)
    (command : String) (params : Params) :
    sendExtCommand st command params = (st, SendOutcome.notConnected connErrorMsg) ∧
    (∀ conn : Conn, conn.readyState ≠ wsOpen →
      sendExtCommand { st with extClient := some conn } command params =
        ({ st with extClient := some conn }, SendOutcome.notConnected connErrorMsg)) ∧
    (∀ name ∈ remoteForwardedTools, ∀ a : ToolArgs,
      executeExtensionTool sendNoConn name a = Except.error connErrorMsg) ∧
    (∀ call : ToolCall, call.name ∈ remoteForwardedTools →
      toolResultFor call (executeExtensionTool sendNoConn call.name call.args) =
        Message.toolResult call.id call.name
          [ResultBlock.text ("Error: " ++ connErrorMsg)] true) ∧
    (∀ (s : Unit) (tcs : List ToolCall),
      ((runToolCalls (fun u c => (u, executeExtensionTool sendNoConn c.name c.args))
          s tcs).2).length = tcs.length) := by
  have key : ∀ name ∈ remoteForwardedTools, ∀ a : ToolArgs,
      executeExtensionTool sendNoConn name a = Except.error connErrorMsg := by
    intro name hmem a
    fin_cases hmem <;> rfl
  refine ⟨?_, ?_, key, ?_, ?_⟩
  · simp [sendExtCommand, hnc]
  · intro conn hco
    have hb : (conn.readyState != wsOpen) = true := by simpa [bne_iff_ne] using hco
    simp [sendExtCommand, hb]
  · intro call hmem
    rw [key call.name hmem call.args]
    rfl
  · intro s tcs
    exact runToolCalls_length _ s tcs

/-- Claim C5 witness: a concrete disconnected send fails with the message,
and a concrete browser_click on the Remote backend errors with it. -/
theorem claim_c5_witness :
    sendExtCommand stNoConn "click" [] = (stNoConn, SendOutcome.notConnected connErrorMsg) ∧
    executeExtensionTool sendNoConn "browser_click" { selector := "button" } =
      Except.error connErrorMsg := by
  have h := claim_c5 stNoConn rfl "click" []
  exact ⟨h.1, h.2.2.1 "browser_click" (by simp [remoteForwardedTools]) { selector := "button" }⟩

/-- A page whose only element has no matching role but is matched by the
CSS engine for the selector string button. -/
def pageBtn : PageModel :=
  { elems := [{ role := "generic", accName := "Go", textContent := "Go" }],
    cssMatch := fun css _ => css == "button",
    bodyInnerText := "", title := "", ariaSnapshotText := "", screenshotData := "",
    downloadSuggestedName := none, homeDir := "/home/user",
    gotoOk := fun _ => true, textAppears := fun _ => false,
    textGoesAway := fun _ => false, elemBecomesVisible := fun _ => false }

/-- Claim C6 counterexample: on the bare role token button the code throws
after the role-scoped lookup comes up empty, never attempting the CSS
tier, while the spec's tiered fallback resolution succeeds through tier
(c) on the same page — the resolutions differ at this concrete input. -/
theorem claim_c6_counterexample :
    resolveFirst pageBtn "button" =
      Except.error ("No element matches selector: button") ∧
    specResolveFirst pageBtn "button" =
      Except.ok { role := "generic", accName := "Go", textContent := "Go" } ∧
    resolveFirst pageBtn "button" ≠ specResolveFirst pageBtn "button" := by
  refine ⟨rfl, rfl, ?_⟩
  intro h
  have h2 : (Except.error ("No element matches selector: button") : Except String PageElem) =
      Except.ok { role := "generic", accName := "Go", textContent := "Go" } := h
  exact Except.noConfusion h2

/-- Claim C6 (amended): selector resolution picks exactly one tier from
the string's shape — the role-name pattern gives a role lookup filtered by
case-insensitive name substring; otherwise a bare token of word characters
(letters, digits or underscore, with no known-role check) gives a
role-only lookup, which errors with no CSS fallback when it matches
nothing; any other string is a literal CSS lookup; and browser_click and
browser_fill both act on the first element of that resolution or propagate
its error. -/
theorem claim_c6 (p : PageModel) (s : String) :
    (∀ role name, matchRoleName s = some (role, name) →
      resolveFirst p s = firstElem s (getByRoleNamed p role name) ∧
      getByRoleNamed p role name =
        p.elems.filter fun e => e.role == role && containsCI e.accName name) ∧
    (matchRoleName s = none → isBareWord s = true →
      resolveFirst p s = firstElem s (getByRoleOnly p s) ∧
      (getByRoleOnly p s = [] →
        resolveFirst p s = Except.error ("No element matches selector: " ++ s))) ∧
    (matchRoleName s = none → isBareWord s = false →
      resolveFirst p s = firstElem s (locatorAll p s)) ∧
    (∀ a : ToolArgs,
      executeBrowserToolCDP p "browser_click" a =
        (match resolveFirst p a.selector with
         | Except.error e => Except.error e
         | Except.ok _ => Except.ok { text := "Clicked: " ++ a.selector }) ∧
      executeBrowserToolCDP p "browser_fill" a =
        (match resolveFirst p a.selector with
         | Except.error e => Except.error e
         | Except.ok _ =>
             Except.ok { text := "Filled \"" ++ a.text ++ "\" into " ++ a.selector })) := by
  refine ⟨?_, ?_, ?_, ?_⟩
  · intro role name h
    exact ⟨by simp [resolveFirst, h], rfl⟩
  · intro h hb
    constructor
    · simp [resolveFirst, h, hb]
    · intro hempty
      simp [resolveFirst, h, hb, hempty, firstElem]
  · intro h hb
    simp [resolveFirst, h, hb]
  · intro a
    constructor <;>
      · cases hr : resolveFirst p a.selector <;>
        · unfold executeBrowserToolCDP
          rw [hr]
          rfl

/-- Claim C6 witness: a string that is neither the role-name pattern nor a
bare word resolves as a literal CSS selector. -/
theorem claim_c6_witness :
    resolveFirst pageBtn ".btn main" =
      firstElem ".btn main" (locatorAll pageBtn ".btn main") :=
  ((claim_c6 pageBtn ".btn main").2.2.1) rfl rfl

/-- Claim C7 counterexample: a name outside the registry produces a
successful Unknown-tool text result from both executors, and through the
loop a tool result with isError false — not an UnknownTool failure. -/
theorem claim_c7_counterexample :
    executeBrowserToolCDP pageBtn "browser_hack" {} =
      Except.ok { text := "Unknown tool: browser_hack" } ∧
    executeExtensionTool sendNoConn "browser_hack" {} =
      Except.ok { text := "Unknown tool: browser_hack" } ∧
    toolResultFor { id := "t1", name := "browser_hack", args := {} }
        (executeBrowserToolCDP pageBtn "browser_hack" {}) =
      Message.toolResult "t1" "browser_hack"
        [ResultBlock.text "Unknown tool: browser_hack"] false := by
  exact ⟨rfl, rfl, rfl⟩

/-- Claim C7 (amended): for every tool name outside the fixed registry both
executors return a successful text result Unknown tool plus the name (the
default switch case), and the loop records it as a non-error tool
result. -/
theorem claim_c7 (name : String) (h : name ∉ browserToolNames) :
    (∀ (p : PageModel) (a : ToolArgs),
      executeBrowserToolCDP p name a = Except.ok { text := "Unknown tool: " ++ name }) ∧
    (∀ (send : String → Params → Except String ExtReply) (a : ToolArgs),
      executeExtensionTool send name a = Except.ok { text := "Unknown tool: " ++ name }) ∧
    (∀ (call : ToolCall) (p : PageModel), call.name = name →
      toolResultFor call (executeBrowserToolCDP p name call.args) =
        Message.toolResult call.id call.name
          [ResultBlock.text ("Unknown tool: " ++ name)] false) := by
  have hcdp : ∀ (p : PageModel) (a : ToolArgs),
      executeBrowserToolCDP p name a = Except.ok { text := "Unknown tool: " ++ name } := by
    intro p a
    unfold executeBrowserToolCDP
    split <;> first
      | rfl
      | (exfalso; apply h; simp_all [browserToolNames])
  refine ⟨hcdp, ?_, ?_⟩
  · intro send a
    unfold executeExtensionTool
    split <;> first
      | rfl
      | (exfalso; apply h; simp_all [browserToolNames])
  · intro call p hcall
    rw [hcdp p call.args]
    rfl

/-- Claim C7 witness: the concrete out-of-registry name browser_zzz gets
the successful Unknown-tool result. -/
theorem claim_c7_witness :
    executeBrowserToolCDP pageBtn "browser_zzz" {} =
      Except.ok { text := "Unknown tool: " ++ "browser_zzz" } :=
  (claim_c7 "browser_zzz" (by simp [browserToolNames])).1 pageBtn {}

/-- A channel state with one connected actuator and two Pending Requests. -/
def stC8 : ChannelState :=
  { extClient := some { connId := 1, readyState := wsOpen }, listeners := [1],
    messageId := 2, pending := [1, 2] }

/-- Claim C8 counterexample: accepting a new connection replaces the
actuator handle but settles nothing — both Pending Requests survive — and
the superseded connection is still listened to: a later reply arriving on
it still resolves a Pending Request. -/
theorem claim_c8_counterexample :
    (handleConnection (α := Nat) stC8 5).1 =
      { extClient := some { connId := 5, readyState := wsOpen }, listeners := [1, 5],
        messageId := 2, pending := [1, 2] } ∧
    (handleConnection (α := Nat) stC8 5).2 = [] ∧
    (handleConnection (α := Nat) stC8 5).1.pending = stC8.pending ∧
    handleMessageFrom (handleConnection (α := Nat) stC8 5).1 1
        { id := 1, result := (9 : Nat) } =
      ({ extClient := some { connId := 5, readyState := wsOpen }, listeners := [1, 5],
         messageId := 2, pending := [2] }, some (1, Settlement.resolved 9)) := by
  exact ⟨rfl, rfl, rfl, rfl⟩

/-- Claim C8 (amended): a newly accepted inbound connection supersedes the
prior one as the send target and gets its own listeners, but the Pending
Requests are left untouched and none is failed (they are reclaimed only by
their individual timeouts), and the prior connection's message listener
remains attached. -/
theorem claim_c8 {α : Type} (st : ChannelState) (connId : Nat) :
    (handleConnection (α := α) st connId).1.extClient =
      some { connId := connId, readyState := wsOpen } ∧
    (handleConnection (α := α) st connId).1.pending = st.pending ∧
    (handleConnection (α := α) st connId).2 = [] ∧
    (handleConnection (α := α) st connId).1.listeners = st.listeners ++ [connId] := by
  exact ⟨rfl, rfl, rfl, rfl⟩

/-- Claim C9: mission i of the round-robin assignment goes to session
i mod k, with the whole static assignment list computed up front, one
entry per mission. -/
theorem claim_c9 {S M : Type} (sessions : List S) (missions : List M) (i : Nat)
    (m : M) (hm : missions[i]? = some m) (hk : sessions ≠ []) :
    (assignRoundRobin sessions missions).length = missions.length ∧
    ∃ s, sessions[i % sessions.length]? = some s ∧
      (assignRoundRobin sessions missions)[i]? = some (some s, m, i) := by
  have hlen : 0 < sessions.length := List.length_pos.mpr hk
  have hmod : i % sessions.length < sessions.length := Nat.mod_lt _ hlen
  have hs := List.getElem?_eq_getElem hmod
  have hmain : (assignRoundRobin sessions missions)[i]? =
      some (sessions[i % sessions.length]?, m, i) := by
    simp [assignRoundRobin, List.getElem?_map, List.getElem?_enum, hm]
  rw [hs] at hmain
  exact ⟨by simp [assignRoundRobin], _, hs, hmain⟩

/-- Claim C9 witness: three missions over two sessions assign mission 2 to
session 2 mod 2 = 0. -/
theorem claim_c9_witness :
    (assignRoundRobin ["s0", "s1"] ["m0", "m1", "m2"]).length = 3 ∧
    ∃ s, ["s0", "s1"][2 % 2]? = some s ∧
      (assignRoundRobin ["s0", "s1"] ["m0", "m1", "m2"])[2]? = some (some s, "m2", 2) := by
  have h := claim_c9 ["s0", "s1"] ["m0", "m1", "m2"] 2 "m2" rfl (List.cons_ne_nil _ _)
  exact h

theorem sliceTo_length_le (s : String) (n : Nat) : (sliceTo s n).length ≤ n := by
  have h : (sliceTo s n).length = (s.data.take n).length := rfl
  rw [h, List.length_take]
  exact min_le_left _ _

theorem sliceTo_append_drop (s : String) (n : Nat) :
    (sliceTo s n).data ++ s.data.drop n = s.data := by
  simp [sliceTo]

/-- Claim C10: browser_get_text on the Direct backend returns the page
body's text when the selector is empty and the first CSS match's text
otherwise, in both cases sliced to its first 2000 characters — at most
2000 characters, a prefix of the source text. -/
theorem claim_c10 (p : PageModel) (a : ToolArgs) :
    (a.selector = "" →
      executeBrowserToolCDP p "browser_get_text" a =
        Except.ok { text := sliceTo p.bodyInnerText 2000 } ∧
      (sliceTo p.bodyInnerText 2000).length ≤ 2000 ∧
      (sliceTo p.bodyInnerText 2000).data ++ p.bodyInnerText.data.drop 2000 =
        p.bodyInnerText.data) ∧
    (∀ (e : PageElem) (rest : List PageElem), a.selector ≠ "" →
      locatorAll p a.selector = e :: rest →
      executeBrowserToolCDP p "browser_get_text" a =
        Except.ok { text := sliceTo e.textContent 2000 } ∧
      (sliceTo e.textContent 2000).length ≤ 2000 ∧
      (sliceTo e.textContent 2000).data ++ e.textContent.data.drop 2000 =
        e.textContent.data) := by
  constructor
  · intro h
    refine ⟨?_, sliceTo_length_le _ _, sliceTo_append_drop _ _⟩
    simp [executeBrowserToolCDP, h]
  · intro e rest hne hl
    have hb : (a.selector == "") = false := by simpa [beq_iff_eq] using hne
    refine ⟨?_, sliceTo_length_le _ _, sliceTo_append_drop _ _⟩
    simp only [executeBrowserToolCDP, hb, hl, firstElem, Bool.false_eq_true, if_false]
    rfl

/-- The page used by the get-text witness. -/
def pageText : PageModel :=
  { elems := [], cssMatch := fun _ _ => false, bodyInnerText := "hello world",
    title := "", ariaSnapshotText := "", screenshotData := "",
    downloadSuggestedName := none, homeDir := "/home/user",
    gotoOk := fun _ => true, textAppears := fun _ => false,
    textGoesAway := fun _ => false, elemBecomesVisible := fun _ => false }

/-- Claim C10 witness: with an empty selector the body text comes back
truncated to its first 2000 characters. -/
theorem claim_c10_witness :
    executeBrowserToolCDP pageText "browser_get_text" {} =
      Except.ok { text := sliceTo pageText.bodyInnerText 2000 } ∧
    (sliceTo pageText.bodyInnerText 2000).length ≤ 2000 := by
  have h := (claim_c10 pageText {}).1 rfl
  exact ⟨h.1, h.2.1⟩

end PiBrowser
